import Mathlib

/-!
# Verification of the Bitget webhook trading bot (`main.py`)

A shallow embedding of the order relay in `main.py`: the action translation
table, the HMAC-SHA256 request signer, the order payload construction, the
HTTP dispatch of `place_order`, and the Flask `webhook` route.  Machine
words are `Nat` reduced modulo `2 ^ 32`; byte strings are `List Nat` with
every element below 256; Python exceptions are explicit `Except` values.
The HTTP layer is modelled by passing the network as a function from the
outgoing request to its outcome, and each run records the list of requests
actually issued so that "no network call happens" is a provable statement.
-/

set_option maxRecDepth 100000

/-! ## 32-bit words as `Nat` modulo `2 ^ 32` -/

/-- `2 ^ 32`, the word modulus. -/
def M32 : Nat := 4294967296

/-- Reduce to a 32-bit word. -/
def w32 (n : Nat) : Nat := n % M32

/-- 32-bit modular addition. -/
def add32 (a b : Nat) : Nat := (a + b) % M32

/-- Bitwise complement on 32-bit words (operands are kept below `2 ^ 32`). -/
def not32 (a : Nat) : Nat := Nat.xor a 4294967295

/-- Right rotation of a 32-bit word. -/
def rotr32 (n x : Nat) : Nat := w32 (Nat.lor (x >>> n) (x <<< (32 - n)))

/-- SHA-256 choice function. -/
def ch32 (x y z : Nat) : Nat := Nat.xor (Nat.land x y) (Nat.land (not32 x) z)

/-- SHA-256 majority function. -/
def maj32 (x y z : Nat) : Nat :=
  Nat.xor (Nat.xor (Nat.land x y) (Nat.land x z)) (Nat.land y z)

/-- SHA-256 big sigma 0. -/
def bsig0 (x : Nat) : Nat := Nat.xor (Nat.xor (rotr32 2 x) (rotr32 13 x)) (rotr32 22 x)

/-- SHA-256 big sigma 1. -/
def bsig1 (x : Nat) : Nat := Nat.xor (Nat.xor (rotr32 6 x) (rotr32 11 x)) (rotr32 25 x)

/-- SHA-256 small sigma 0. -/
def ssig0 (x : Nat) : Nat := Nat.xor (Nat.xor (rotr32 7 x) (rotr32 18 x)) (x >>> 3)

/-- SHA-256 small sigma 1. -/
def ssig1 (x : Nat) : Nat := Nat.xor (Nat.xor (rotr32 17 x) (rotr32 19 x)) (x >>> 10)

/-- The 64 SHA-256 round constants (FIPS 180-4). -/
def SHA_K : List Nat :=
  [1116352408, 1899447441, 3049323471, 3921009573, 961987163,
   1508970993, 2453635748, 2870763221, 3624381080, 310598401,
   607225278, 1426881987, 1925078388, 2162078206, 2614888103,
   3248222580, 3835390401, 4022224774, 264347078, 604807628,
   770255983, 1249150122, 1555081692, 1996064986, 2554220882,
   2821834349, 2952996808, 3210313671, 3336571891, 3584528711,
   113926993, 338241895, 666307205, 773529912, 1294757372,
   1396182291, 1695183700, 1986661051, 2177026350, 2456956037,
   2730485921, 2820302411, 3259730800, 3345764771, 3516065817,
   3600352804, 4094571909, 275423344, 430227734, 506948616,
   659060556, 883997877, 958139571, 1322822218, 1537002063,
   1747873779, 1955562222, 2024104815, 2227730452, 2361852424,
   2428436474, 2756734187, 3204031479, 3329325298]

/-- The SHA-256 initial hash value. -/
def SHA_H0 : List Nat :=
  [1779033703, 3144134277, 1013904242, 2773480762,
   1359893119, 2600822924, 528734635, 1541459225]

/-- Big-endian packing of bytes into 32-bit words, four at a time. -/
def bytesToWords : List Nat → List Nat
  | b0 :: b1 :: b2 :: b3 :: rest =>
    (((b0 * 256 + b1) * 256 + b2) * 256 + b3) :: bytesToWords rest
  | _ => []

/-- Big-endian bytes of a 32-bit word. -/
def wordBytes (n : Nat) : List Nat :=
  [n / 16777216 % 256, n / 65536 % 256, n / 256 % 256, n % 256]

/-- Big-endian bytes of a 64-bit length field. -/
def natBytes8 (n : Nat) : List Nat :=
  [n / 72057594037927936 % 256, n / 281474976710656 % 256,
   n / 1099511627776 % 256, n / 4294967296 % 256,
   n / 16777216 % 256, n / 65536 % 256, n / 256 % 256, n % 256]

/-- SHA-256 padding: `0x80`, zeros to 56 mod 64, then the bit length. -/
def sha256Pad (msg : List Nat) : List Nat :=
  let l := msg.length
  msg ++ [128] ++ List.replicate ((119 - l % 64) % 64) 0 ++ natBytes8 (8 * l)

/-- Extend the 16 message-schedule words to 64 (`fuel` is the number of
extension steps, 48 for SHA-256). -/
def extendW : Nat → List Nat → List Nat
  | 0, w => w
  | n + 1, w =>
    let t := w.length
    extendW n (w ++ [add32 (add32 (ssig1 (w.getD (t - 2) 0)) (w.getD (t - 7) 0))
                         (add32 (ssig0 (w.getD (t - 15) 0)) (w.getD (t - 16) 0))])

/-- The eight SHA-256 working variables. -/
structure Sha8 where
  a : Nat
  b : Nat
  c : Nat
  d : Nat
  e : Nat
  f : Nat
  g : Nat
  h : Nat
deriving Repr, DecidableEq

/-- One SHA-256 round: consume one `(K, W)` pair. -/
def roundStep (st : Sha8) (kw : Nat × Nat) : Sha8 :=
  let t1 := add32 st.h (add32 (add32 (bsig1 st.e) (ch32 st.e st.f st.g))
                              (add32 kw.1 kw.2))
  let t2 := add32 (bsig0 st.a) (maj32 st.a st.b st.c)
  ⟨add32 t1 t2, st.a, st.b, st.c, add32 st.d t1, st.e, st.f, st.g⟩

/-- Compress one 64-byte block into the running hash (eight words). -/
def sha256Compress (hh : List Nat) (block : List Nat) : List Nat :=
  let w := extendW 48 (bytesToWords block)
  let st0 : Sha8 := ⟨hh.getD 0 0, hh.getD 1 0, hh.getD 2 0, hh.getD 3 0,
                     hh.getD 4 0, hh.getD 5 0, hh.getD 6 0, hh.getD 7 0⟩
  let st := (SHA_K.zip w).foldl roundStep st0
  [add32 st0.a st.a, add32 st0.b st.b, add32 st0.c st.c, add32 st0.d st.d,
   add32 st0.e st.e, add32 st0.f st.f, add32 st0.g st.g, add32 st0.h st.h]

/-- Split a padded message into 64-byte blocks; `n` is the block count. -/
def takeBlocks : Nat → List Nat → List (List Nat)
  | 0, _ => []
  | n + 1, l => l.take 64 :: takeBlocks n (l.drop 64)

/-- SHA-256 of a byte string, as 32 bytes. -/
def sha256 (msg : List Nat) : List Nat :=
  let padded := sha256Pad msg
  let hh := (takeBlocks (padded.length / 64) padded).foldl sha256Compress SHA_H0
  hh.flatMap wordBytes

/-- HMAC-SHA256 (RFC 2104) of `msg` under `key`, as 32 bytes. -/
def hmacSha256 (key msg : List Nat) : List Nat :=
  let k0 := if 64 < key.length then sha256 key else key
  let kp := k0 ++ List.replicate (64 - k0.length) 0
  let ipadKey := kp.map (fun b => Nat.xor b 54)
  let opadKey := kp.map (fun b => Nat.xor b 92)
  sha256 (opadKey ++ sha256 (ipadKey ++ msg))

/-! ## Base64 and UTF-8 -/

/-- The standard base64 alphabet. -/
def B64_ALPHABET : List Char :=
  "ABCDEFGHIJKLMNOPQRSTUVWXYZabcdefghijklmnopqrstuvwxyz0123456789+/".data

/-- The base64 character for a 6-bit value. -/
def b64char (n : Nat) : Char := B64_ALPHABET.getD n 'A'

/-- Standard base64 encoding with `=` padding. -/
def base64Encode : List Nat → String
  | [] => ""
  | [b0] =>
    String.mk [b64char (b0 / 4), b64char (b0 % 4 * 16)] ++ "=="
  | [b0, b1] =>
    String.mk [b64char (b0 / 4), b64char (b0 % 4 * 16 + b1 / 16),
               b64char (b1 % 16 * 4)] ++ "="
  | b0 :: b1 :: b2 :: rest =>
    String.mk [b64char (b0 / 4), b64char (b0 % 4 * 16 + b1 / 16),
               b64char (b1 % 16 * 4 + b2 / 64), b64char (b2 % 64)]
      ++ base64Encode rest

/-- UTF-8 bytes of one character. -/
def utf8EncodeChar (c : Char) : List Nat :=
  let n := c.toNat
  if n < 128 then [n]
  else if n < 2048 then [192 + n / 64, 128 + n % 64]
  else if n < 65536 then [224 + n / 4096, 128 + n / 64 % 64, 128 + n % 64]
  else [240 + n / 262144, 128 + n / 4096 % 64, 128 + n / 64 % 64, 128 + n % 64]

/-- UTF-8 bytes of a string (Python's `str.encode()`). -/
def utf8Encode (s : String) : List Nat := s.data.flatMap utf8EncodeChar

-- Known-answer checks: FIPS 180-4 "abc", the empty string, RFC 4231 test
-- case 2 for HMAC-SHA256, and RFC 4648 base64 vectors.
example : sha256 (utf8Encode "abc") =
    [186, 120, 22, 191, 143, 1, 207, 234, 65, 65, 64, 222, 93,
     174, 34, 35, 176, 3, 97, 163, 150, 23, 122, 156, 180, 16,
     255, 97, 242, 0, 21, 173] := by decide

example : sha256 [] =
    [227, 176, 196, 66, 152, 252, 28, 20, 154, 251, 244, 200, 153,
     111, 185, 36, 39, 174, 65, 228, 100, 155, 147, 76, 164, 149,
     153, 27, 120, 82, 184, 85] := by decide

example : hmacSha256 (utf8Encode "Jefe") (utf8Encode "what do ya want for nothing?") =
    [91, 220, 193, 70, 191, 96, 117, 78, 106, 4, 36, 38, 8,
     149, 117, 199, 90, 0, 63, 8, 157, 39, 57, 131, 157, 236,
     88, 185, 100, 236, 56, 67] := by decide

example : base64Encode (utf8Encode "foobar") = "Zm9vYmFy" := by decide

example : base64Encode (utf8Encode "foob") = "Zm9vYg==" := by decide

example : base64Encode (utf8Encode "fooba") = "Zm9vYmE=" := by decide

/-! ## A decimal model of Python values

`PyFloat` models a CPython `float` by the exact decimal it prints as:
CPython's `repr`/`str` of a binary64 float is the shortest decimal that
round-trips, so for the short decimal literals arriving in webhook JSON
(every input exercised by the claims), `str(float(x))` is the canonical
decimal rendering of `x` itself.  The value is `num / 10 ^ scale`, kept
with no trailing zero in the fraction. -/

structure PyFloat where
  num : Int
  scale : Nat
deriving Repr, DecidableEq

/-- Render a `PyFloat` the way CPython's `str` renders the float
(integral values get a trailing `.0`; exponent notation, reached only
below `1e-4` or at `1e16` and beyond, is outside the claims and not
modelled). -/
def pyFloatStr (f : PyFloat) : String :=
  let sign := if f.num < 0 then "-" else ""
  let digits := toString f.num.natAbs
  if f.scale = 0 then sign ++ digits ++ ".0"
  else
    let padded :=
      if digits.length ≤ f.scale then
        String.mk (List.replicate (f.scale + 1 - digits.length) '0') ++ digits
      else digits
    sign ++ padded.take (padded.length - f.scale) ++ "."
      ++ padded.drop (padded.length - f.scale)

example : pyFloatStr ⟨1, 3⟩ = "0.001" := by decide
example : pyFloatStr ⟨-1, 0⟩ = "-1.0" := by decide
example : pyFloatStr ⟨1, 0⟩ = "1.0" := by decide
example : pyFloatStr ⟨1234, 2⟩ = "12.34" := by decide

/-- Parsed JSON values as Python's `json` module produces them: integer
literals become `int`, fractional literals become `float`. -/
inductive Json where
  | null
  | bool (b : Bool)
  | int (n : Int)
  | float (f : PyFloat)
  | str (s : String)
  | arr (xs : List Json)
  | obj (fields : List (String × Json))
deriving Repr

/-- Python exceptions that the embedded code can raise; `str(e)` is the
carried message. -/
inductive PyError where
  | valueError (msg : String)
  | typeError (msg : String)
  | attributeError (msg : String)
  | timeout (msg : String)
  | connectionError (msg : String)
  | jsonDecodeError (msg : String)
deriving Repr, DecidableEq

/-- Python `str(e)` on an exception: the message. -/
def PyError.str : PyError → String
  | .valueError m | .typeError m | .attributeError m
  | .timeout m | .connectionError m | .jsonDecodeError m => m

/-- Join strings with a separator. -/
def joinSep (sep : String) : List String → String
  | [] => ""
  | [x] => x
  | x :: xs => x ++ sep ++ joinSep sep xs

/-- A lowercase hex digit. -/
def hexDigit (n : Nat) : Char := "0123456789abcdef".data.getD n '0'

/-- Four lowercase hex digits. -/
def hex4 (n : Nat) : String :=
  String.mk [hexDigit (n / 4096 % 16), hexDigit (n / 256 % 16),
             hexDigit (n / 16 % 16), hexDigit (n % 16)]

/-- JSON `\uXXXX` escape (with a surrogate pair above the BMP), as
`json.dumps` emits with its default `ensure_ascii=True`. -/
def uEscape (c : Char) : String :=
  let n := c.toNat
  if n < 65536 then "\\u" ++ hex4 n
  else
    let m := n - 65536
    "\\u" ++ hex4 (55296 + m / 1024) ++ "\\u" ++ hex4 (56320 + m % 1024)

/-- How `json.dumps` escapes one character inside a string literal. -/
def jsonEscapeChar (c : Char) : String :=
  if c = '"' then "\\\"" else if c = '\\' then "\\\\"
  else if c = '\n' then "\\n" else if c = '\t' then "\\t"
  else if c = '\r' then "\\r"
  else if c.toNat = 8 then "\\b" else if c.toNat = 12 then "\\f"
  else if c.toNat < 32 || 126 < c.toNat then uEscape c
  else String.singleton c

/-- A JSON string literal as `json.dumps` renders it. -/
def jsonQuote (s : String) : String :=
  "\"" ++ String.join (s.data.map jsonEscapeChar) ++ "\""

mutual

/-- `json.dumps(v, separators=(",", ":"))`: compact JSON, fields in
insertion order (Python dicts preserve insertion order). -/
def jsonDumps : Json → String
  | .null => "null"
  | .bool b => if b then "true" else "false"
  | .int n => toString n
  | .float f => pyFloatStr f
  | .str s => jsonQuote s
  | .arr xs => "[" ++ joinSep "," (jsonDumpsList xs) ++ "]"
  | .obj fs => "\x7b" ++ joinSep "," (jsonDumpsFields fs) ++ "\x7d"

/-- Rendered elements of a JSON array. -/
def jsonDumpsList : List Json → List String
  | [] => []
  | x :: xs => jsonDumps x :: jsonDumpsList xs

/-- Rendered `key:value` pairs of a JSON object. -/
def jsonDumpsFields : List (String × Json) → List String
  | [] => []
  | (k, v) :: fs => (jsonQuote k ++ ":" ++ jsonDumps v) :: jsonDumpsFields fs

end

example : jsonDumps (.obj [("a", .str "x"), ("n", .int 3), ("f", .float ⟨1, 3⟩)])
    = "\x7b\"a\":\"x\",\"n\":3,\"f\":0.001\x7d" := by decide

mutual

/-- Python `repr` of a parsed-JSON value (string repr is simplified to
plain single quotes; no claim exercises container `str`). -/
def pyRepr : Json → String
  | .null => "None"
  | .bool b => if b then "True" else "False"
  | .int n => toString n
  | .float f => pyFloatStr f
  | .str s => "\x27" ++ s ++ "\x27"
  | .arr xs => "[" ++ joinSep ", " (pyReprList xs) ++ "]"
  | .obj fs => "\x7b" ++ joinSep ", " (pyReprFields fs) ++ "\x7d"

/-- `repr` of the elements of a Python list. -/
def pyReprList : List Json → List String
  | [] => []
  | x :: xs => pyRepr x :: pyReprList xs

/-- `repr` of the `key: value` pairs of a Python dict. -/
def pyReprFields : List (String × Json) → List String
  | [] => []
  | (k, v) :: fs => ("\x27" ++ k ++ "\x27: " ++ pyRepr v) :: pyReprFields fs

end

/-- Python `str()` of a parsed-JSON value. -/
def pyStr : Json → String
  | .str s => s
  | j => pyRepr j

/-- Python `str.lower()` on the ASCII range (the webhook actions are
ASCII; Unicode case folding is not modelled). -/
def pyLowerChar (c : Char) : Char :=
  if 65 ≤ c.toNat && c.toNat ≤ 90 then Char.ofNat (c.toNat + 32) else c

/-- Python `str.lower()`. -/
def pyLower (s : String) : String := String.mk (s.data.map pyLowerChar)

example : pyLower "OPEN_LONG" = "open_long" := by decide

/-- Strip trailing zeros off a decimal fraction: structural fuel is the
scale itself. -/
def canonAux : Nat → Nat → Nat × Nat
  | 0, n => (n, 0)
  | s + 1, n => if n % 10 = 0 then canonAux s (n / 10) else (n, s + 1)

/-- Build the canonical `PyFloat` for `(-1)^neg * n / 10 ^ scale`. -/
def canonPyFloat (neg : Bool) (n scale : Nat) : PyFloat :=
  let (m, s) := canonAux scale n
  ⟨if neg then -(m : Int) else (m : Int), s⟩

/-- Digits to a natural number. -/
def digitsToNat (cs : List Char) : Nat :=
  cs.foldl (fun n c => n * 10 + (c.toNat - 48)) 0

/-- Python `float(<str>)` on plain decimal literals (`[+-]digits[.digits]`
with at least one digit; exponents, `inf`/`nan` and surrounding whitespace
are outside the claims and rejected). -/
def pyParseFloat (s : String) : Option PyFloat :=
  let (neg, cs) :=
    match s.data with
    | '-' :: rest => (true, rest)
    | '+' :: rest => (false, rest)
    | l => (false, l)
  let intDigits := cs.takeWhile Char.isDigit
  let rest := cs.dropWhile Char.isDigit
  match rest with
  | [] =>
    if intDigits.isEmpty then none
    else some (canonPyFloat neg (digitsToNat intDigits) 0)
  | '.' :: fracPart =>
    let fracDigits := fracPart.takeWhile Char.isDigit
    let rest2 := fracPart.dropWhile Char.isDigit
    if rest2.isEmpty && !(intDigits.isEmpty && fracDigits.isEmpty) then
      some (canonPyFloat neg (digitsToNat (intDigits ++ fracDigits)) fracDigits.length)
    else none
  | _ => none

/-- Python `float()` applied to a parsed-JSON value, as in
`float(data["amount"])`. -/
def pyFloatOfJson : Json → Except PyError PyFloat
  | .float f => .ok f
  | .int n => .ok ⟨n, 0⟩
  | .bool b => .ok ⟨if b then 1 else 0, 0⟩
  | .str s =>
    match pyParseFloat s with
    | some f => .ok f
    | none => .error (.valueError
        s!"could not convert string to float: \x27{s}\x27")
  | .null => .error (.typeError
      "float() argument must be a string or a real number, not \x27NoneType\x27")
  | .obj _ => .error (.typeError
      "float() argument must be a string or a real number, not \x27dict\x27")
  | .arr _ => .error (.typeError
      "float() argument must be a string or a real number, not \x27list\x27")

example : pyFloatOfJson (.int (-1)) = .ok ⟨-1, 0⟩ := rfl
example : pyFloatOfJson (.str "0.001") = .ok ⟨1, 3⟩ := rfl
example : pyFloatOfJson (.str "abc")
    = .error (.valueError "could not convert string to float: \x27abc\x27") := rfl

/-! ## The embedded program: credentials, translation, signing, dispatch

`main.py` reads the credentials once at module load; `place_order` builds
the payload, signs, and performs one `requests.post`.  The clock reading
`str(int(time.time() * 1000))` is passed in as `ts`, and the network is
passed in as a function `http` from the issued request to its outcome.
Every run returns the list of requests actually issued. -/

/-- The four environment variables (`os.getenv` returns `None` when
absent). -/
structure Config where
  apiKey : Option String
  apiSecret : Option String
  apiPassphrase : Option String
  subUid : Option String
deriving Repr, DecidableEq

/-- `BITGET_BASE`. -/
def BITGET_BASE : String := "https://api.bitget.com"

/-- `ORDER_ENDPOINT`. -/
def ORDER_ENDPOINT : String := "/api/mix/v1/order/placeOrder"

/-- `ACTION_MAP`: action to `(side, posSide)`, in source order. -/
def ACTION_MAP : List (String × String × String) :=
  [("open_long", ("buy", "long")), ("close_long", ("sell", "long")),
   ("open_short", ("sell", "short")), ("close_short", ("buy", "short"))]

/-- Dict lookup in `ACTION_MAP` (`action in ACTION_MAP` /
`ACTION_MAP[action]`). -/
def actionLookup (a : String) : Option (String × String) :=
  (ACTION_MAP.find? (fun p => p.1 == a)).map (fun p => p.2)

/-- The `ValueError` message raised for an action outside `ACTION_MAP`
(`list(ACTION_MAP)` prints the four keys in insertion order). -/
def unsupportedMsg (action : String) : String :=
  s!"Unsupported action \x27{action}\x27. Must be one of: [\x27open_long\x27, \x27close_long\x27, \x27open_short\x27, \x27close_short\x27]"

/-- `_bitget_sign`: base64-encoded HMAC-SHA256 of
`f"{timestamp}{method}{path}{body}"` under `API_SECRET`.  When the secret
is absent, `API_SECRET.encode()` raises `AttributeError`. -/
def _bitget_sign (secret : Option String) (timestamp method path body : String) :
    Except PyError String :=
  match secret with
  | none => .error (.attributeError
      "\x27NoneType\x27 object has no attribute \x27encode\x27")
  | some sec =>
    let prehash := s!"{timestamp}{method}{path}{body}"
    .ok (base64Encode (hmacSha256 (utf8Encode sec) (utf8Encode prehash)))

/-- The order payload dict of `place_order`, fields in source order, with
`subUid` appended when `SUB_UID` is truthy (set and non-empty). -/
def mkPayload (subUid : Option String) (symbol : Json) (amount : PyFloat)
    (sideInfo : String × String) : List (String × Json) :=
  [("symbol", symbol), ("marginCoin", Json.str "USDT"),
   ("size", Json.str (pyFloatStr amount)), ("side", Json.str sideInfo.1),
   ("orderType", Json.str "market"), ("posSide", Json.str sideInfo.2)]
  ++ (match subUid with
      | some u => if u = "" then [] else [("subUid", Json.str u)]
      | none => [])

/-- Python `str.startswith(pre)`. -/
def pyStartsWith (s pre : String) : Bool := pre.data.isPrefixOf s.data

/-- An outgoing `requests.post` call: URL, headers (a header set to `None`
mirrors passing a `None`-valued entry in the Python dict), body, and the
timeout in seconds. -/
structure Request where
  url : String
  headers : List (String × Option String)
  body : String
  timeoutSeconds : Nat
deriving Repr

/-- What the network does with an issued request: either a response
(status, declared content type, text, and what `resp.json()` would
yield), or a raised exception such as a timeout or connection error. -/
inductive HttpOutcome where
  | response (status : Nat) (contentType : Option String) (text : String)
      (jsonOf : Except PyError Json)
  | exn (e : PyError)

/-- The value returned by `place_order` together with the requests the
run issued (zero or one). -/
structure Dispatch where
  result : Json
  requests : List Request

/-- `place_order(action, symbol, amount)`: translate the action, build
and serialize the payload once, sign that serialization, POST it with
the auth headers, and normalize the response; every exception is caught
and returned as `{"error": str(err)}`. -/
def place_order (cfg : Config) (ts : String) (http : Request → HttpOutcome)
    (action : String) (symbol : Json) (amount : PyFloat) : Dispatch :=
  match actionLookup action with
  | none => ⟨.obj [("error", .str (unsupportedMsg action))], []⟩
  | some sideInfo =>
    let payload := mkPayload cfg.subUid symbol amount sideInfo
    let body := jsonDumps (.obj payload)
    match _bitget_sign cfg.apiSecret ts "POST" ORDER_ENDPOINT body with
    | .error e => ⟨.obj [("error", .str e.str)], []⟩
    | .ok signature =>
      let req : Request :=
        ⟨BITGET_BASE ++ ORDER_ENDPOINT,
         [("ACCESS-KEY", cfg.apiKey), ("ACCESS-SIGN", some signature),
          ("ACCESS-TIMESTAMP", some ts), ("ACCESS-PASSPHRASE", cfg.apiPassphrase),
          ("Content-Type", some "application/json")],
         body, 10⟩
      match http req with
      | .exn e => ⟨.obj [("error", .str e.str)], [req]⟩
      | .response _status ct text jsonOf =>
        if pyStartsWith (ct.getD "") "application/json" then
          match jsonOf with
          | .ok j => ⟨j, [req]⟩
          | .error e => ⟨.obj [("error", .str e.str)], [req]⟩
        else ⟨.obj [("raw", .str text)], [req]⟩

/-- Key lookup in a parsed-JSON object (`data["k"]`). -/
def jlookup (k : String) (fs : List (String × Json)) : Option Json :=
  (fs.find? (fun p => p.1 == k)).map (fun p => p.2)

/-- Header lookup in an outgoing request. -/
def hlookup (k : String) (hs : List (String × Option String)) : Option (Option String) :=
  (hs.find? (fun p => p.1 == k)).map (fun p => p.2)

/-- The `required` field set of the webhook route. -/
def REQUIRED : List String := ["action", "symbol", "amount"]

/-- The 400 message `f"Missing fields — required {required}"` (the order
inside the braces is CPython's unspecified set iteration order; no claim
depends on it). -/
def missingFieldsMsg : String :=
  "Missing fields — required \x7b\x27action\x27, \x27symbol\x27, \x27amount\x27\x7d"

/-- The webhook route's HTTP answer plus the outbound requests issued. -/
structure WebhookResult where
  result : Json
  status : Nat
  requests : List Request
deriving Repr

/-- The `/webhook` route on an already-parsed JSON object body: check the
three required keys, then call
`place_order(str(data["action"]).lower(), data["symbol"], float(data["amount"]))`;
a conversion error is caught by the outer handler and answered with 500,
a missing key with 400, and whatever `place_order` returns with 200. -/
def webhook (cfg : Config) (ts : String) (http : Request → HttpOutcome)
    (data : List (String × Json)) : WebhookResult :=
  if REQUIRED.all (fun k => (jlookup k data).isSome) then
    match pyFloatOfJson ((jlookup "amount" data).getD .null) with
    | .error e => ⟨.obj [("error", .str e.str)], 500, []⟩
    | .ok amount =>
      let d := place_order cfg ts http
        (pyLower (pyStr ((jlookup "action" data).getD .null)))
        ((jlookup "symbol" data).getD .null) amount
      ⟨d.result, 200, d.requests⟩
  else ⟨.obj [("error", .str missingFieldsMsg)], 400, []⟩

/-! ## Fixtures used by witnesses and counterexamples -/

/-- A fully-configured credential set. -/
def cfgFull : Config := ⟨some "test-key", some "test-secret", some "test-pass", none⟩

/-- Credentials with the mandatory API key and passphrase absent. -/
def cfgNoKey : Config := ⟨none, some "test-secret", none, none⟩

/-- Credentials with the API secret absent. -/
def cfgNoSecret : Config := ⟨some "test-key", none, some "test-pass", none⟩

/-- A fixed timestamp string. -/
def ts0 : String := "1700000000000"

/-- A network that times out on every request. -/
def httpTimeout : Request → HttpOutcome :=
  fun _ => .exn (.timeout "HTTPSConnectionPool(host=\x27api.bitget.com\x27, port=443): Read timed out.")

-- The hedge-mode end-to-end shape on the spec's example input.
example :
    (webhook cfgFull ts0 httpTimeout
      [("action", .str "open_long"), ("symbol", .str "BTCUSDT"),
       ("amount", .float ⟨1, 3⟩)]).requests.length = 1 := rfl

example :
    (place_order cfgFull ts0 httpTimeout "open_long" (.str "BTCUSDT") ⟨1, 3⟩).requests.map
      (fun r => r.body) =
    ["\x7b\"symbol\":\"BTCUSDT\",\"marginCoin\":\"USDT\",\"size\":\"0.001\",\"side\":\"buy\",\"orderType\":\"market\",\"posSide\":\"long\"\x7d"] := rfl

/-! ## The one-way qualifier scheme (spec §4.1), modelled from the spec

`src/main.py` contains only the hedge-mode variant (`posSide`); the
spec describes the repository's other, near-duplicate variants — not
included under `src/` — as using a one-way `tradeSide` qualifier
selected by a configuration flag. -/

/-- Modelled from the spec: the one-way qualifier column of the §4.1
table (missing from `src/`): the side matches the side that would
increase exposure in the same direction (buy opens and closes a long,
sell opens and closes a short), and the qualifier is `tradeSide`
open/close. -/
def ACTION_MAP_ONEWAY : List (String × String × String) :=
  [("open_long", ("buy", "open")), ("close_long", ("buy", "close")),
   ("open_short", ("sell", "open")), ("close_short", ("sell", "close"))]

/-- Modelled from the spec: the one-way action translation lookup. -/
def onewayLookup (a : String) : Option (String × String) :=
  (ACTION_MAP_ONEWAY.find? (fun p => p.1 == a)).map (fun p => p.2)

/-- Modelled from the spec: the one-way order payload (missing from
`src/`): the qualifier field is `tradeSide`, and no `posSide` field is
present. -/
def mkPayloadOneWay (subUid : Option String) (symbol : Json) (amount : PyFloat)
    (sideInfo : String × String) : List (String × Json) :=
  [("symbol", symbol), ("marginCoin", Json.str "USDT"),
   ("size", Json.str (pyFloatStr amount)), ("side", Json.str sideInfo.1),
   ("orderType", Json.str "market"), ("tradeSide", Json.str sideInfo.2)]
  ++ (match subUid with
      | some u => if u = "" then [] else [("subUid", Json.str u)]
      | none => [])

/-! ## Shared lemmas -/

/-- With the secret present, `_bitget_sign` is the base64 HMAC-SHA256 of
the separator-free concatenation `timestamp ++ method ++ path ++ body`. -/
theorem bitget_sign_some (sec timestamp method path body : String) :
    _bitget_sign (some sec) timestamp method path body =
      .ok (base64Encode (hmacSha256 (utf8Encode sec)
        (utf8Encode (timestamp ++ method ++ path ++ body)))) := by
  simp [_bitget_sign, toString, String.append_empty, String.empty_append,
    String.append_assoc]

/-- An action off the four keys finds nothing in `ACTION_MAP`. -/
theorem actionLookup_eq_none (a : String)
    (h : a ∉ ["open_long", "close_long", "open_short", "close_short"]) :
    actionLookup a = none := by
  simp only [List.mem_cons, List.not_mem_nil, or_false, not_or] at h
  obtain ⟨h1, h2, h3, h4⟩ := h
  have e1 : ("open_long" == a) = false := beq_eq_false_iff_ne.mpr (Ne.symm h1)
  have e2 : ("close_long" == a) = false := beq_eq_false_iff_ne.mpr (Ne.symm h2)
  have e3 : ("open_short" == a) = false := beq_eq_false_iff_ne.mpr (Ne.symm h3)
  have e4 : ("close_short" == a) = false := beq_eq_false_iff_ne.mpr (Ne.symm h4)
  simp [actionLookup, ACTION_MAP, List.find?, e1, e2, e3, e4]

/-! ## Claims -/

/-- C1: for every action string, the Action Translator returns exactly the
fixed table's `(side, qualifier)` pair — `open_long ↦ (buy, long)`,
`close_long ↦ (sell, long)`, `open_short ↦ (sell, short)`,
`close_short ↦ (buy, short)` — and any string outside the four fails with
an unsupported-action error that names the offending value and lists the
valid set, returned to the caller instead of a defaulted order. -/
theorem claim_C1_action_translator :
    actionLookup "open_long" = some ("buy", "long")
    ∧ actionLookup "close_long" = some ("sell", "long")
    ∧ actionLookup "open_short" = some ("sell", "short")
    ∧ actionLookup "close_short" = some ("buy", "short")
    ∧ ∀ a, a ∉ ["open_long", "close_long", "open_short", "close_short"] →
        actionLookup a = none
        ∧ ∀ cfg ts http symbol amount,
            place_order cfg ts http a symbol amount =
              ⟨Json.obj [("error", Json.str (unsupportedMsg a))], []⟩ := by
  refine ⟨rfl, rfl, rfl, rfl, fun a h => ?_⟩
  have hn := actionLookup_eq_none a h
  exact ⟨hn, fun cfg ts http symbol amount => by simp [place_order, hn]⟩

/-- C1 witness: `sideways` is outside the enumeration and `place_order`
answers it with the unsupported-action error and no request. -/
theorem claim_C1_witness :
    "sideways" ∉ ["open_long", "close_long", "open_short", "close_short"]
    ∧ actionLookup "sideways" = none
    ∧ place_order cfgFull ts0 httpTimeout "sideways" (.str "BTCUSDT") ⟨1, 3⟩ =
        ⟨Json.obj [("error", Json.str (unsupportedMsg "sideways"))], []⟩ := by
  have h : "sideways" ∉ ["open_long", "close_long", "open_short", "close_short"] := by
    decide
  have := claim_C1_action_translator.2.2.2.2 "sideways" h
  exact ⟨h, this.1, this.2 cfgFull ts0 httpTimeout (.str "BTCUSDT") ⟨1, 3⟩⟩

/-- C2: for every `(timestamp, method, path, body)` quadruple (and present
secret), the Signer returns the standard base64 encoding of the
HMAC-SHA256 digest, keyed by the configured API secret, of the
concatenation of timestamp, method, path and body in that order with no
separators.  Determinism over identical inputs is immediate because the
embedding is a pure function of exactly these five strings. -/
theorem claim_C2_signer (secret timestamp method path body : String) :
    _bitget_sign (some secret) timestamp method path body =
      .ok (base64Encode (hmacSha256 (utf8Encode secret)
        (utf8Encode (timestamp ++ method ++ path ++ body)))) :=
  bitget_sign_some secret timestamp method path body

/-- The single request `place_order` issues once the action translates and
the secret is present: the compact payload serialization is the body, and
the `ACCESS-SIGN` header is the base64 HMAC-SHA256 of
`ts ++ "POST" ++ ORDER_ENDPOINT ++ body` under the secret. -/
def signedRequest (cfg : Config) (sec ts : String) (symbol : Json)
    (amount : PyFloat) (sideInfo : String × String) : Request :=
  let body := jsonDumps (.obj (mkPayload cfg.subUid symbol amount sideInfo))
  ⟨BITGET_BASE ++ ORDER_ENDPOINT,
   [("ACCESS-KEY", cfg.apiKey),
    ("ACCESS-SIGN", some (base64Encode (hmacSha256 (utf8Encode sec)
       (utf8Encode (ts ++ "POST" ++ ORDER_ENDPOINT ++ body))))),
    ("ACCESS-TIMESTAMP", some ts),
    ("ACCESS-PASSPHRASE", cfg.apiPassphrase),
    ("Content-Type", some "application/json")],
   body, 10⟩

/-- Whatever the network replies (or raises), a run of `place_order` with a
translatable action and a present secret issues exactly the one signed
request. -/
theorem place_order_requests_eq (cfg : Config) (sec ts : String)
    (http : Request → HttpOutcome) (action : String) (symbol : Json)
    (amount : PyFloat) (sideInfo : String × String)
    (hA : actionLookup action = some sideInfo)
    (hs : cfg.apiSecret = some sec) :
    (place_order cfg ts http action symbol amount).requests =
      [signedRequest cfg sec ts symbol amount sideInfo] := by
  simp only [place_order, hA, hs, bitget_sign_some, signedRequest]
  split
  · rfl
  · split
    · split <;> rfl
    · rfl

/-- C3: the byte sequence signed is exactly the byte sequence transmitted —
every request `place_order` issues carries as body the one compact JSON
serialization of the order payload, and its `ACCESS-SIGN` header is the
signature recomputed over precisely that transmitted body. -/
theorem claim_C3_signed_body (cfg : Config) (sec ts : String)
    (http : Request → HttpOutcome) (action : String) (symbol : Json)
    (amount : PyFloat) (hs : cfg.apiSecret = some sec) :
    ∀ req ∈ (place_order cfg ts http action symbol amount).requests,
      (∃ sideInfo, actionLookup action = some sideInfo ∧
        req.body = jsonDumps (.obj (mkPayload cfg.subUid symbol amount sideInfo)))
      ∧ hlookup "ACCESS-SIGN" req.headers =
          some (some (base64Encode (hmacSha256 (utf8Encode sec)
            (utf8Encode (ts ++ "POST" ++ ORDER_ENDPOINT ++ req.body))))) := by
  intro req hreq
  cases hA : actionLookup action with
  | none => simp [place_order, hA] at hreq
  | some sideInfo =>
    rw [place_order_requests_eq cfg sec ts http action symbol amount sideInfo hA hs]
      at hreq
    simp only [List.mem_singleton] at hreq
    subst hreq
    exact ⟨⟨sideInfo, rfl, rfl⟩, rfl⟩

/-- C3 witness: a concrete fully-credentialed run on `open_long`. -/
theorem claim_C3_witness :
    cfgFull.apiSecret = some "test-secret"
    ∧ ∀ req ∈ (place_order cfgFull ts0 httpTimeout "open_long"
          (.str "BTCUSDT") ⟨1, 3⟩).requests,
        (∃ sideInfo, actionLookup "open_long" = some sideInfo ∧
          req.body = jsonDumps (.obj (mkPayload cfgFull.subUid (.str "BTCUSDT")
            ⟨1, 3⟩ sideInfo)))
        ∧ hlookup "ACCESS-SIGN" req.headers =
            some (some (base64Encode (hmacSha256 (utf8Encode "test-secret")
              (utf8Encode (ts0 ++ "POST" ++ ORDER_ENDPOINT ++ req.body))))) :=
  ⟨rfl, claim_C3_signed_body cfgFull "test-secret" ts0 httpTimeout "open_long"
    (.str "BTCUSDT") ⟨1, 3⟩ rfl⟩

/-- C4: with the hedge-mode scheme (the one `main.py` implements), the
input `{"action": "open_long", "symbol": "BTCUSDT", "amount": 0.001}`
yields an order payload with `side=buy`, `posSide=long`, `size="0.001"`,
`orderType=market`, and the dispatcher issues exactly one POST to the
fixed order endpoint whose `ACCESS-SIGN` header equals the independently
recomputed signature over the transmitted body. -/
theorem claim_C4_end_to_end (cfg : Config) (sec ts : String)
    (http : Request → HttpOutcome) (hs : cfg.apiSecret = some sec) :
    ∃ req,
      (webhook cfg ts http
        [("action", .str "open_long"), ("symbol", .str "BTCUSDT"),
         ("amount", .float ⟨1, 3⟩)]).requests = [req]
      ∧ req.url = BITGET_BASE ++ ORDER_ENDPOINT
      ∧ req.body = jsonDumps (.obj (mkPayload cfg.subUid (.str "BTCUSDT")
          ⟨1, 3⟩ ("buy", "long")))
      ∧ jlookup "side" (mkPayload cfg.subUid (.str "BTCUSDT") ⟨1, 3⟩ ("buy", "long"))
          = some (.str "buy")
      ∧ jlookup "posSide" (mkPayload cfg.subUid (.str "BTCUSDT") ⟨1, 3⟩ ("buy", "long"))
          = some (.str "long")
      ∧ jlookup "size" (mkPayload cfg.subUid (.str "BTCUSDT") ⟨1, 3⟩ ("buy", "long"))
          = some (.str "0.001")
      ∧ jlookup "orderType" (mkPayload cfg.subUid (.str "BTCUSDT") ⟨1, 3⟩ ("buy", "long"))
          = some (.str "market")
      ∧ hlookup "ACCESS-SIGN" req.headers =
          some (some (base64Encode (hmacSha256 (utf8Encode sec)
            (utf8Encode (ts ++ "POST" ++ ORDER_ENDPOINT ++ req.body))))) := by
  have hw : webhook cfg ts http
      [("action", .str "open_long"), ("symbol", .str "BTCUSDT"),
       ("amount", .float ⟨1, 3⟩)] =
      ⟨(place_order cfg ts http "open_long" (.str "BTCUSDT") ⟨1, 3⟩).result, 200,
       (place_order cfg ts http "open_long" (.str "BTCUSDT") ⟨1, 3⟩).requests⟩ := rfl
  refine ⟨signedRequest cfg sec ts (.str "BTCUSDT") ⟨1, 3⟩ ("buy", "long"),
    ?_, rfl, rfl, rfl, rfl, rfl, rfl, rfl⟩
  rw [hw]
  exact place_order_requests_eq cfg sec ts http "open_long" (.str "BTCUSDT")
    ⟨1, 3⟩ ("buy", "long") rfl hs

/-- C4 witness: the concrete fully-credentialed run. -/
theorem claim_C4_witness :
    cfgFull.apiSecret = some "test-secret"
    ∧ ∃ req,
      (webhook cfgFull ts0 httpTimeout
        [("action", .str "open_long"), ("symbol", .str "BTCUSDT"),
         ("amount", .float ⟨1, 3⟩)]).requests = [req]
      ∧ req.url = BITGET_BASE ++ ORDER_ENDPOINT
      ∧ req.body = jsonDumps (.obj (mkPayload cfgFull.subUid (.str "BTCUSDT")
          ⟨1, 3⟩ ("buy", "long")))
      ∧ jlookup "side" (mkPayload cfgFull.subUid (.str "BTCUSDT") ⟨1, 3⟩ ("buy", "long"))
          = some (.str "buy")
      ∧ jlookup "posSide" (mkPayload cfgFull.subUid (.str "BTCUSDT") ⟨1, 3⟩ ("buy", "long"))
          = some (.str "long")
      ∧ jlookup "size" (mkPayload cfgFull.subUid (.str "BTCUSDT") ⟨1, 3⟩ ("buy", "long"))
          = some (.str "0.001")
      ∧ jlookup "orderType" (mkPayload cfgFull.subUid (.str "BTCUSDT") ⟨1, 3⟩ ("buy", "long"))
          = some (.str "market")
      ∧ hlookup "ACCESS-SIGN" req.headers =
          some (some (base64Encode (hmacSha256 (utf8Encode "test-secret")
            (utf8Encode (ts0 ++ "POST" ++ ORDER_ENDPOINT ++ req.body))))) :=
  ⟨rfl, claim_C4_end_to_end cfgFull "test-secret" ts0 httpTimeout rfl⟩

/-- A webhook body with exactly the three required keys: the presence
check passes, the amount is converted, and the dispatcher is called on
the lowercased stringified action. -/
theorem webhook_threeField (cfg : Config) (ts : String)
    (http : Request → HttpOutcome) (a : String) (sym amtJ : Json) :
    webhook cfg ts http [("action", .str a), ("symbol", sym), ("amount", amtJ)] =
      match pyFloatOfJson amtJ with
      | .error e => ⟨.obj [("error", .str e.str)], 500, []⟩
      | .ok amount =>
        let d := place_order cfg ts http (pyLower a) sym amount
        ⟨d.result, 200, d.requests⟩ := rfl

/-- C5 as stated is false on the code: the fourth malformed input — a
non-positive amount — is not validated anywhere, and with credentials
configured the run issues a network call to the exchange. -/
theorem claim_C5_counterexample :
    (webhook cfgFull ts0 httpTimeout
      [("action", .str "open_long"), ("symbol", .str "BTCUSDT"),
       ("amount", .int (-1))]).requests.length = 1 := rfl

/-- C5 amended: the three inputs `{}`, missing-amount and unrecognized
action are answered with a validation error and no network call, but the
non-positive amount `-1` passes validation untouched: the order is
dispatched (size `"-1.0"`), so exactly one network call occurs. -/
theorem claim_C5_amended :
    (∀ cfg ts http, webhook cfg ts http [] =
      ⟨.obj [("error", .str missingFieldsMsg)], 400, []⟩)
    ∧ (∀ cfg ts http, webhook cfg ts http
        [("action", .str "open_long"), ("symbol", .str "BTCUSDT")] =
        ⟨.obj [("error", .str missingFieldsMsg)], 400, []⟩)
    ∧ (∀ cfg ts http, webhook cfg ts http
        [("action", .str "sideways"), ("symbol", .str "BTCUSDT"), ("amount", .int 1)] =
        ⟨.obj [("error", .str (unsupportedMsg "sideways"))], 200, []⟩)
    ∧ (∀ cfg sec ts http, cfg.apiSecret = some sec →
        (webhook cfg ts http
          [("action", .str "open_long"), ("symbol", .str "BTCUSDT"),
           ("amount", .int (-1))]).requests.length = 1) := by
  refine ⟨fun cfg ts http => rfl, fun cfg ts http => rfl, fun cfg ts http => rfl,
    fun cfg sec ts http hs => ?_⟩
  rw [webhook_threeField]
  show (place_order cfg ts http "open_long" (.str "BTCUSDT") ⟨-1, 0⟩).requests.length = 1
  rw [place_order_requests_eq cfg sec ts http "open_long" (.str "BTCUSDT") ⟨-1, 0⟩
    ("buy", "long") rfl hs]
  rfl

/-- C5 witness: the concrete fully-credentialed run on the fourth input. -/
theorem claim_C5_witness :
    cfgFull.apiSecret = some "test-secret"
    ∧ (webhook cfgFull ts0 httpTimeout
        [("action", .str "open_long"), ("symbol", .str "BTCUSDT"),
         ("amount", .int (-1))]).requests.length = 1 :=
  ⟨rfl, claim_C5_amended.2.2.2 cfgFull "test-secret" ts0 httpTimeout rfl⟩

/-- C6 as stated is false on the code: an unsupported action is a
validation failure, yet the webhook answers it with HTTP status 200 (the
`{"error": ...}` dict from `place_order` goes through `jsonify(result)`
with the default status), not 400. -/
theorem claim_C6_counterexample :
    webhook cfgFull ts0 httpTimeout
      [("action", .str "sideways"), ("symbol", .str "BTCUSDT"), ("amount", .int 1)] =
      ⟨.obj [("error", .str (unsupportedMsg "sideways"))], 200, []⟩ := rfl

/-- C6 amended: every validation failure is answered with a JSON object
carrying an `error` message, but not uniformly with status 400: missing
required fields get 400; an amount that cannot be converted gets 500 (the
outer exception handler); an unsupported action gets the `error` body with
status 200; and a wrong-typed symbol is not rejected at all — the order is
submitted.  Error responses are distinguishable from success responses
only by the `error` key in the body. -/
theorem claim_C6_amended :
    (∀ cfg ts http data,
      REQUIRED.all (fun k => (jlookup k data).isSome) = false →
      webhook cfg ts http data = ⟨.obj [("error", .str missingFieldsMsg)], 400, []⟩)
    ∧ (∀ cfg ts http (a : String) (sym amtJ : Json) (amt : PyFloat),
        pyFloatOfJson amtJ = .ok amt → actionLookup (pyLower a) = none →
        webhook cfg ts http [("action", .str a), ("symbol", sym), ("amount", amtJ)] =
          ⟨.obj [("error", .str (unsupportedMsg (pyLower a)))], 200, []⟩)
    ∧ (∀ cfg ts http (a : String) (sym amtJ : Json) (e : PyError),
        pyFloatOfJson amtJ = .error e →
        webhook cfg ts http [("action", .str a), ("symbol", sym), ("amount", amtJ)] =
          ⟨.obj [("error", .str e.str)], 500, []⟩)
    ∧ (∀ cfg sec ts http, cfg.apiSecret = some sec →
        (webhook cfg ts http
          [("action", .str "open_long"), ("symbol", .int 123),
           ("amount", .int 1)]).requests.length = 1) := by
  refine ⟨fun cfg ts http data h => ?_, fun cfg ts http a sym amtJ amt hamt hA => ?_,
    fun cfg ts http a sym amtJ e hamt => ?_, fun cfg sec ts http hs => ?_⟩
  · simp [webhook, h]
  · rw [webhook_threeField, hamt]
    simp only [place_order, hA]
  · rw [webhook_threeField, hamt]
  · rw [webhook_threeField]
    show (place_order cfg ts http "open_long" (.int 123) ⟨1, 0⟩).requests.length = 1
    rw [place_order_requests_eq cfg sec ts http "open_long" (.int 123) ⟨1, 0⟩
      ("buy", "long") rfl hs]
    rfl

/-- C6 witness: each branch at a concrete input — empty body, `sideways`
action, non-numeric amount string, and a numeric symbol. -/
theorem claim_C6_witness :
    (REQUIRED.all (fun k => (jlookup k ([] : List (String × Json))).isSome) = false
      ∧ webhook cfgFull ts0 httpTimeout [] =
          ⟨.obj [("error", .str missingFieldsMsg)], 400, []⟩)
    ∧ (pyFloatOfJson (.int 1) = .ok ⟨1, 0⟩
      ∧ actionLookup (pyLower "sideways") = none
      ∧ webhook cfgFull ts0 httpTimeout
          [("action", .str "sideways"), ("symbol", .str "BTCUSDT"), ("amount", .int 1)] =
          ⟨.obj [("error", .str (unsupportedMsg (pyLower "sideways")))], 200, []⟩)
    ∧ (pyFloatOfJson (.str "abc")
        = .error (.valueError "could not convert string to float: \x27abc\x27")
      ∧ webhook cfgFull ts0 httpTimeout
          [("action", .str "open_long"), ("symbol", .str "BTCUSDT"),
           ("amount", .str "abc")] =
          ⟨.obj [("error", .str (PyError.valueError
            "could not convert string to float: \x27abc\x27").str)], 500, []⟩)
    ∧ (cfgFull.apiSecret = some "test-secret"
      ∧ (webhook cfgFull ts0 httpTimeout
          [("action", .str "open_long"), ("symbol", .int 123),
           ("amount", .int 1)]).requests.length = 1) :=
  ⟨⟨rfl, claim_C6_amended.1 cfgFull ts0 httpTimeout [] rfl⟩,
   ⟨rfl, rfl, claim_C6_amended.2.1 cfgFull ts0 httpTimeout "sideways"
      (.str "BTCUSDT") (.int 1) ⟨1, 0⟩ rfl rfl⟩,
   ⟨rfl, claim_C6_amended.2.2.1 cfgFull ts0 httpTimeout "open_long"
      (.str "BTCUSDT") (.str "abc")
      (.valueError "could not convert string to float: \x27abc\x27") rfl⟩,
   ⟨rfl, claim_C6_amended.2.2.2 cfgFull "test-secret" ts0 httpTimeout rfl⟩⟩

/-- C7 (spec-modelled, one-way scheme absent from `src/`): with the
one-way qualifier scheme, `{"action": "open_long", "symbol": "BTCUSDT",
"amount": 0.001}` translates to `(buy, open)` and produces an order
payload containing `side=buy` and `tradeSide=open` with no `posSide`
field present. -/
theorem claim_C7_oneway :
    onewayLookup "open_long" = some ("buy", "open")
    ∧ jlookup "side" (mkPayloadOneWay none (.str "BTCUSDT") ⟨1, 3⟩ ("buy", "open"))
        = some (.str "buy")
    ∧ jlookup "tradeSide" (mkPayloadOneWay none (.str "BTCUSDT") ⟨1, 3⟩ ("buy", "open"))
        = some (.str "open")
    ∧ jlookup "posSide" (mkPayloadOneWay none (.str "BTCUSDT") ⟨1, 3⟩ ("buy", "open"))
        = none
    ∧ jlookup "size" (mkPayloadOneWay none (.str "BTCUSDT") ⟨1, 3⟩ ("buy", "open"))
        = some (.str "0.001") :=
  ⟨rfl, rfl, rfl, rfl, rfl⟩

/-- C8 as stated is false on the code: module load only prints a warning
when credentials are missing, and `place_order` performs no credential
check of its own.  With the API key and passphrase both absent (secret
present), the signature is still computed and the POST is still issued —
no fail-fast configuration error occurs. -/
theorem claim_C8_counterexample :
    (place_order cfgNoKey ts0 httpTimeout "open_long"
      (.str "BTCUSDT") ⟨1, 3⟩).requests.length = 1 := rfl

/-- C8 amended: there is no up-front credential check.  Only a missing
API secret aborts a submission — `API_SECRET.encode()` raises a generic
`AttributeError` during signing which the blanket handler returns as an
`{"error": ...}` object (distinguishable from an exchange response, with
no request issued) — while a missing API key or passphrase does not
prevent signing: the signature is computed and the order POST is still
dispatched. -/
theorem claim_C8_amended :
    (∀ cfg ts http action symbol amount, cfg.apiSecret = none →
      (place_order cfg ts http action symbol amount).requests = []
      ∧ ∃ msg, (place_order cfg ts http action symbol amount).result =
          .obj [("error", .str msg)])
    ∧ (∀ cfg sec ts http action sideInfo symbol amount,
        cfg.apiSecret = some sec → actionLookup action = some sideInfo →
        (place_order cfg ts http action symbol amount).requests.length = 1) := by
  constructor
  · intro cfg ts http action symbol amount hs
    cases hA : actionLookup action with
    | none =>
      refine ⟨?_, unsupportedMsg action, ?_⟩ <;> simp [place_order, hA]
    | some sideInfo =>
      refine ⟨?_, "\x27NoneType\x27 object has no attribute \x27encode\x27", ?_⟩ <;>
        simp [place_order, hA, hs, _bitget_sign, PyError.str]
  · intro cfg sec ts http action sideInfo symbol amount hs hA
    rw [place_order_requests_eq cfg sec ts http action symbol amount sideInfo hA hs]
    rfl

/-- C8 witness: with no secret the attempt returns an error object and no
request; with secret present but key and passphrase absent the request is
dispatched anyway. -/
theorem claim_C8_witness :
    (cfgNoSecret.apiSecret = none
      ∧ (place_order cfgNoSecret ts0 httpTimeout "open_long"
          (.str "BTCUSDT") ⟨1, 3⟩).requests = []
      ∧ ∃ msg, (place_order cfgNoSecret ts0 httpTimeout "open_long"
          (.str "BTCUSDT") ⟨1, 3⟩).result = .obj [("error", .str msg)])
    ∧ (cfgNoKey.apiSecret = some "test-secret"
      ∧ actionLookup "open_long" = some ("buy", "long")
      ∧ (place_order cfgNoKey ts0 httpTimeout "open_long"
          (.str "BTCUSDT") ⟨1, 3⟩).requests.length = 1) :=
  ⟨⟨rfl, (claim_C8_amended.1 cfgNoSecret ts0 httpTimeout "open_long"
      (.str "BTCUSDT") ⟨1, 3⟩ rfl).1,
    (claim_C8_amended.1 cfgNoSecret ts0 httpTimeout "open_long"
      (.str "BTCUSDT") ⟨1, 3⟩ rfl).2⟩,
   ⟨rfl, rfl, claim_C8_amended.2 cfgNoKey "test-secret" ts0 httpTimeout "open_long"
      ("buy", "long") (.str "BTCUSDT") ⟨1, 3⟩ rfl rfl⟩⟩

/-- C9: responses whose declared content type is not JSON are wrapped as
`{"raw": <text>}`; a raised network exception and a JSON body that fails
to parse are both returned as `{"error": <message>}` — every failure path
of the dispatcher yields a structured value instead of propagating. -/
theorem claim_C9_response_normalization (cfg : Config) (sec ts : String)
    (action : String) (sideInfo : String × String) (symbol : Json)
    (amount : PyFloat) (hA : actionLookup action = some sideInfo)
    (hs : cfg.apiSecret = some sec) :
    (∀ st ct text jsonOf, pyStartsWith (ct.getD "") "application/json" = false →
      (place_order cfg ts (fun _ => .response st ct text jsonOf)
        action symbol amount).result = .obj [("raw", .str text)])
    ∧ (∀ e, (place_order cfg ts (fun _ => .exn e) action symbol amount).result
        = .obj [("error", .str e.str)])
    ∧ (∀ st ct text e, pyStartsWith (ct.getD "") "application/json" = true →
      (place_order cfg ts (fun _ => .response st ct text (.error e))
        action symbol amount).result = .obj [("error", .str e.str)]) := by
  refine ⟨fun st ct text jsonOf h => ?_, fun e => ?_, fun st ct text e h => ?_⟩
  · simp [place_order, hA, hs, bitget_sign_some, h]
  · simp [place_order, hA, hs, bitget_sign_some]
  · simp [place_order, hA, hs, bitget_sign_some, h]

/-- C9 witness: an HTML error page is wrapped as `raw`, a timeout and a
parse failure come back as `error` objects. -/
theorem claim_C9_witness :
    actionLookup "open_long" = some ("buy", "long")
    ∧ cfgFull.apiSecret = some "test-secret"
    ∧ pyStartsWith ((some "text/html" : Option String).getD "") "application/json" = false
    ∧ (place_order cfgFull ts0
        (fun _ => .response 502 (some "text/html") "<html>Bad Gateway</html>"
          (.error (.jsonDecodeError "Expecting value: line 1 column 1 (char 0)")))
        "open_long" (.str "BTCUSDT") ⟨1, 3⟩).result =
        .obj [("raw", .str "<html>Bad Gateway</html>")]
    ∧ (place_order cfgFull ts0
        (fun _ => .exn (.timeout "Read timed out."))
        "open_long" (.str "BTCUSDT") ⟨1, 3⟩).result =
        .obj [("error", .str (PyError.timeout "Read timed out.").str)]
    ∧ pyStartsWith ((some "application/json" : Option String).getD "") "application/json" = true
    ∧ (place_order cfgFull ts0
        (fun _ => .response 200 (some "application/json") "not json"
          (.error (.jsonDecodeError "Expecting value: line 1 column 1 (char 0)")))
        "open_long" (.str "BTCUSDT") ⟨1, 3⟩).result =
        .obj [("error", .str (PyError.jsonDecodeError
          "Expecting value: line 1 column 1 (char 0)").str)] :=
  ⟨rfl, rfl, rfl,
   (claim_C9_response_normalization cfgFull "test-secret" ts0 "open_long"
      ("buy", "long") (.str "BTCUSDT") ⟨1, 3⟩ rfl rfl).1 502 (some "text/html")
      "<html>Bad Gateway</html>"
      (.error (.jsonDecodeError "Expecting value: line 1 column 1 (char 0)")) rfl,
   (claim_C9_response_normalization cfgFull "test-secret" ts0 "open_long"
      ("buy", "long") (.str "BTCUSDT") ⟨1, 3⟩ rfl rfl).2.1
      (.timeout "Read timed out."),
   rfl,
   (claim_C9_response_normalization cfgFull "test-secret" ts0 "open_long"
      ("buy", "long") (.str "BTCUSDT") ⟨1, 3⟩ rfl rfl).2.2 200
      (some "application/json") "not json"
      (.jsonDecodeError "Expecting value: line 1 column 1 (char 0)") rfl⟩

/-- C10: the webhook lowercases the inbound action before translation, so
two inputs whose action strings agree after lowercasing — e.g.
`"OPEN_LONG"` and `"open_long"` — are translated and submitted exactly
alike. -/
theorem claim_C10_case_insensitive (cfg : Config) (ts : String)
    (http : Request → HttpOutcome) (a b : String) (sym amtJ : Json)
    (h : pyLower a = pyLower b) :
    webhook cfg ts http [("action", .str a), ("symbol", sym), ("amount", amtJ)] =
      webhook cfg ts http [("action", .str b), ("symbol", sym), ("amount", amtJ)] := by
  rw [webhook_threeField, webhook_threeField, h]

/-- C10 witness: the uppercase spelling behaves exactly as the lowercase
one on the spec's example input. -/
theorem claim_C10_witness :
    pyLower "OPEN_LONG" = pyLower "open_long"
    ∧ webhook cfgFull ts0 httpTimeout
        [("action", .str "OPEN_LONG"), ("symbol", .str "BTCUSDT"),
         ("amount", .float ⟨1, 3⟩)] =
      webhook cfgFull ts0 httpTimeout
        [("action", .str "open_long"), ("symbol", .str "BTCUSDT"),
         ("amount", .float ⟨1, 3⟩)] :=
  ⟨rfl, claim_C10_case_insensitive cfgFull ts0 httpTimeout "OPEN_LONG" "open_long"
    (.str "BTCUSDT") (.float ⟨1, 3⟩) rfl⟩
